import Mathlib

/-!
Shallow embedding of the strata-foundry bridge (crate strata-foundry-bridge).

The crate is a C-ABI boundary layer over an external engine (stratadb).  The
embedding translates `src/handle.rs` (HandleRegistry) and `src/lib.rs` (the
boundary entry points and their helpers).  The external engine — the types
`Command`, `Output`, the engine error, the resource `Strata`, and their serde
instances — is out of scope of the crate and is modelled abstractly by an
`EngineModel` record of behaviour functions; the bridge source is generic over
that protocol.  Foreign C strings are modelled as `Option String` (`none` is a
null pointer or invalid UTF-8, exactly the two cases `cstr_to_str` collapses).
A call into external code that may terminate abnormally is modelled with an
explicit `fault` outcome, which is what `std::panic::catch_unwind` observes.
-/

namespace StrataBridge

/-- Modulus of a wrapping 64-bit unsigned counter; `AtomicU64::fetch_add`
wraps around on overflow. -/
def U64 : Nat := 2 ^ 64

/-- Outcome of running a piece of external engine code: a normal value, a
reported error value, or abnormal termination (an unwind) of the call. -/
inductive ERes (α : Type) (ε : Type) where
  | ok (a : α)
  | err (e : ε)
  | fault
  deriving DecidableEq

/-- Abstract model of the external stratadb engine and its serde instances,
over which the bridge is generic: `decodeCmd` models
`serde_json::from_str::<Command>` (with the serde error already rendered by
Display), `encodeOut` models `serde_json::to_string(&output)`, `encodeErr`
models `serde_json::to_string(&e)` for the engine error, `errDisplay` models
the Display rendering of the engine error, and `exec` models
`handle.executor().execute(cmd)`, which can produce an output, report an
engine error, or terminate abnormally. -/
structure EngineModel (Cmd Out Err Res : Type) where
  decodeCmd : String → Except String Cmd
  encodeOut : Out → Except String String
  encodeErr : Err → Except String String
  errDisplay : Err → String
  exec : Res → Cmd → ERes Out Err

/-- `HandleRegistry` from handle.rs: an `AtomicU64` id counter and a
concurrent map `DashMap<u64, Strata>` of live handles, modelled as an
association list holding at most one entry per key. -/
structure HandleRegistry (Res : Type) where
  next_id : Nat
  handles : List (Nat × Res)
  deriving DecidableEq

/-- `HandleRegistry::new`: the counter starts at 1 and the map is empty. -/
def HandleRegistry.new (Res : Type) : HandleRegistry Res :=
  { next_id := 1, handles := [] }

/-- `DashMap::insert`: adds the mapping, replacing any previous entry with
the same key. -/
def insertEntry {Res : Type} (id : Nat) (res : Res) (hs : List (Nat × Res)) :
    List (Nat × Res) :=
  (id, res) :: hs.filter (fun p => p.1 != id)

/-- `HandleRegistry::open`: run `Strata::open(path)` (the external attempt is
the `openAt` behaviour, its error already `map_err`-ed to a display string);
on success take an id with a wrapping `fetch_add` on the counter and insert
the resource.  On creation failure the `?` operator returns before the
counter is touched; abnormal termination of the creation call propagates. -/
def HandleRegistry.open_db {Res : Type} (openAt : String → ERes Res String)
    (reg : HandleRegistry Res) (path : String) :
    ERes Nat String × HandleRegistry Res :=
  match openAt path with
  | .fault => (.fault, reg)
  | .err e => (.err e, reg)
  | .ok strata =>
    (.ok reg.next_id,
      { next_id := (reg.next_id + 1) % U64,
        handles := insertEntry reg.next_id strata reg.handles })

/-- `HandleRegistry::open_memory`: identical to `open` except the resource
comes from `Strata::cache()` (the `creation` argument). -/
def HandleRegistry.open_memory {Res : Type} (creation : ERes Res String)
    (reg : HandleRegistry Res) : ERes Nat String × HandleRegistry Res :=
  match creation with
  | .fault => (.fault, reg)
  | .err e => (.err e, reg)
  | .ok strata =>
    (.ok reg.next_id,
      { next_id := (reg.next_id + 1) % U64,
        handles := insertEntry reg.next_id strata reg.handles })

/-- `HandleRegistry::close`: `self.handles.remove(&id)` — the entry with the
given key, if any, is removed. -/
def HandleRegistry.close {Res : Type} (reg : HandleRegistry Res) (id : Nat) :
    HandleRegistry Res :=
  { reg with handles := reg.handles.filter (fun p => p.1 != id) }

/-- `HandleRegistry::execute`: look the handle up with `DashMap::get`
(an error string "invalid handle" if absent), decode the command with serde
(prefixing "invalid command JSON: "), run the engine executor (an engine
error is serialized with serde, falling back on a hand-built Internal shape
from its Display form if that serialization itself fails), and serialize the
output (prefixing "failed to serialize output: " on failure).  The map is
only read, never written. -/
def HandleRegistry.execute {Cmd Out Err Res : Type}
    (E : EngineModel Cmd Out Err Res) (reg : HandleRegistry Res)
    (id : Nat) (command_json : String) : ERes String String :=
  match reg.handles.lookup id with
  | none => .err "invalid handle"
  | some handle =>
    match E.decodeCmd command_json with
    | .error e => .err ("invalid command JSON: " ++ e)
    | .ok cmd =>
      match E.exec handle cmd with
      | .fault => .fault
      | .err e =>
        .err (match E.encodeErr e with
          | .ok s => s
          | .error _ =>
            "\x7b\"Internal\":\x7b\"reason\":\"" ++ E.errDisplay e ++ "\"\x7d\x7d")
      | .ok output =>
        match E.encodeOut output with
        | .ok s => .ok s
        | .error e => .err ("failed to serialize output: " ++ e)

/-- One character of serde_json string escaping: quote and backslash get a
backslash, the five short control escapes are used where they exist, other
control characters become a \u00 hex escape, and everything else is emitted
verbatim. -/
def escapeJsonChar (c : Char) : String :=
  if c = Char.ofNat 34 then "\\\""
  else if c = Char.ofNat 92 then "\\\\"
  else if c = Char.ofNat 8 then "\\b"
  else if c = Char.ofNat 9 then "\\t"
  else if c = Char.ofNat 10 then "\\n"
  else if c = Char.ofNat 12 then "\\f"
  else if c = Char.ofNat 13 then "\\r"
  else if c.toNat < 32 then
    "\\u00" ++ String.singleton (Nat.digitChar (c.toNat / 16)) ++
      String.singleton (Nat.digitChar (c.toNat % 16))
  else String.singleton c

/-- serde_json rendering of a Rust string as a JSON string literal, as
produced by `serde_json::json!(msg)` for a `&str`. -/
def jsonString (s : String) : String :=
  "\"" ++ String.join (s.data.map escapeJsonChar) ++ "\""

/-- `ok_json` from lib.rs: formats a success as a JSON object with the value
under the "ok" key. -/
def ok_json (value : String) : String :=
  "\x7b\"ok\":" ++ value ++ "\x7d"

/-- `error_json` from lib.rs: formats an error message as a JSON object
nesting the message, as an escaped JSON string, under
error / Internal / reason. -/
def error_json (msg : String) : String :=
  "\x7b\"error\":\x7b\"Internal\":\x7b\"reason\":" ++ jsonString msg ++ "\x7d\x7d\x7d"

/-- `to_c_string` from lib.rs: `CString::new(s).unwrap_or_default().into_raw()`.
`CString::new` fails exactly when the string holds an interior NUL byte (in
UTF-8 a zero byte occurs exactly at the NUL character), and
`unwrap_or_default` then silently substitutes the empty C string.  The model
returns the byte content the caller-visible buffer ends up holding. -/
def to_c_string (s : String) : String :=
  if Char.ofNat 0 ∈ s.data then "" else s

/-- Outcome of the closure handed to `catch_panic`: it either returns a
result string or terminates abnormally. -/
inductive BodyOutcome where
  | ret (json : String)
  | fault
  deriving DecidableEq

/-- The fixed envelope `catch_panic` substitutes for an abnormal
termination. -/
def panicEnvelope : String :=
  "\x7b\"error\":\x7b\"Internal\":\x7b\"reason\":\"panic in Rust bridge\"\x7d\x7d\x7d"

/-- `catch_panic` from lib.rs: run the closure under
`std::panic::catch_unwind`; a normal result is materialized with
`to_c_string`, an abnormal termination is replaced by the fixed internal
fault envelope. -/
def catch_panic (body : BodyOutcome) : String :=
  match body with
  | .ret json => to_c_string json
  | .fault => to_c_string panicEnvelope

/-- What a boundary call lets the caller observe: either it returns (with an
optional string buffer — `strata_close` returns none), or an abnormal
termination escapes across the boundary. -/
inductive CallOutcome where
  | returns (buffer : Option String)
  | fault
  deriving DecidableEq

/-- Body of `strata_open`: convert the foreign path (null or invalid UTF-8
is reported, not faulted), ignore `config_json` (a TODO in the source), then
open through the registry and format the id or the error. -/
def strata_open_body {Res : Type} (openAt : String → ERes Res String)
    (reg : HandleRegistry Res) (path _config_json : Option String) :
    BodyOutcome × HandleRegistry Res :=
  match path with
  | none => (.ret (error_json "path is null or invalid UTF-8"), reg)
  | some path_str =>
    match HandleRegistry.open_db openAt reg path_str with
    | (.ok id, reg2) => (.ret (ok_json (Nat.repr id)), reg2)
    | (.err e, reg2) => (.ret (error_json e), reg2)
    | (.fault, reg2) => (.fault, reg2)

/-- `strata_open` from lib.rs: the body wrapped in `catch_panic`; the first
component is the content of the buffer handed to the caller. -/
def strata_open {Res : Type} (openAt : String → ERes Res String)
    (reg : HandleRegistry Res) (path _config_json : Option String) :
    String × HandleRegistry Res :=
  ((catch_panic (strata_open_body openAt reg path _config_json).1),
    (strata_open_body openAt reg path _config_json).2)

/-- Body of `strata_open_memory`: open through the registry and format the
id or the error. -/
def strata_open_memory_body {Res : Type} (creation : ERes Res String)
    (reg : HandleRegistry Res) : BodyOutcome × HandleRegistry Res :=
  match HandleRegistry.open_memory creation reg with
  | (.ok id, reg2) => (.ret (ok_json (Nat.repr id)), reg2)
  | (.err e, reg2) => (.ret (error_json e), reg2)
  | (.fault, reg2) => (.fault, reg2)

/-- `strata_open_memory` from lib.rs: the body wrapped in `catch_panic`. -/
def strata_open_memory {Res : Type} (creation : ERes Res String)
    (reg : HandleRegistry Res) : String × HandleRegistry Res :=
  ((catch_panic (strata_open_memory_body creation reg).1),
    (strata_open_memory_body creation reg).2)

/-- `strata_close` from lib.rs: `REGISTRY.close(handle)` with no
`catch_panic` wrapper and no return value.  Removing a live entry drops the
resource; `teardownFaults` models whether the external teardown (Drop) of a
given resource terminates abnormally, in which case nothing in `strata_close`
catches it and the abnormal termination crosses the boundary.  When the id is
absent nothing is dropped. -/
def strata_close {Res : Type} (reg : HandleRegistry Res) (handle : Nat)
    (teardownFaults : Res → Bool) : CallOutcome × HandleRegistry Res :=
  match reg.handles.lookup handle with
  | some r =>
    (if teardownFaults r then .fault else .returns none,
      HandleRegistry.close reg handle)
  | none => (.returns none, HandleRegistry.close reg handle)

/-- Body of `strata_execute`: convert the foreign command string (null or
invalid UTF-8 is reported, not faulted), then run the registry execute; its
success string is returned as-is, its error string is wrapped by
`error_json`, and an abnormal termination propagates to the barrier. -/
def strata_execute_body {Cmd Out Err Res : Type}
    (E : EngineModel Cmd Out Err Res) (reg : HandleRegistry Res)
    (handle : Nat) (command_json : Option String) : BodyOutcome :=
  match command_json with
  | none => .ret (error_json "command_json is null or invalid UTF-8")
  | some json_str =>
    match HandleRegistry.execute E reg handle json_str with
    | .ok output => .ret output
    | .err e => .ret (error_json e)
    | .fault => .fault

/-- `strata_execute` from lib.rs: the body wrapped in `catch_panic`.  The
body never writes the registry (its only map operation is a read), so the
registry the call leaves behind is the one it started from. -/
def strata_execute {Cmd Out Err Res : Type}
    (E : EngineModel Cmd Out Err Res) (reg : HandleRegistry Res)
    (handle : Nat) (command_json : Option String) :
    String × HandleRegistry Res :=
  (catch_panic (strata_execute_body E reg handle command_json), reg)

/-- `strata_ping` from lib.rs: materializes a fixed literal, with no
`catch_panic` wrapper (the body cannot terminate abnormally). -/
def strata_ping : String :=
  to_c_string "\x7b\"ok\":\"strata-foundry-bridge\"\x7d"

/-- A sequence of `strata_open_memory`-style openings in which every engine
creation succeeds, one per listed resource, collecting the issued ids.  This
is the registry-level trace behind the testable property about N successful
open calls. -/
def openSeq {Res : Type} (resources : List Res) (reg : HandleRegistry Res) :
    List Nat × HandleRegistry Res :=
  match resources with
  | [] => ([], reg)
  | r :: rs =>
    match HandleRegistry.open_memory (ERes.ok r) reg with
    | (ERes.ok id, reg2) =>
      let rest := openSeq rs reg2
      (id :: rest.1, rest.2)
    | (_, reg2) => openSeq rs reg2

/-- A tiny concrete engine protocol used to instantiate the generic bridge in
closed statements: one command (Ping), one output (Pong), one engine error
(Conflict); resources are bare naturals. -/
inductive DemoCmd where
  | ping
  deriving DecidableEq

/-- Output type of the demo engine protocol. -/
inductive DemoOut where
  | pong
  deriving DecidableEq

/-- Error type of the demo engine protocol. -/
inductive DemoErr where
  | conflict
  deriving DecidableEq

/-- Demo engine whose executor succeeds with Pong. -/
def demoEngine : EngineModel DemoCmd DemoOut DemoErr Nat where
  decodeCmd := fun s =>
    if s = "\x7b\"Ping\":null\x7d" then .ok .ping
    else .error "expected value at line 1 column 1"
  encodeOut := fun _ => .ok "\x7b\"Pong\":\x7b\x7d\x7d"
  encodeErr := fun _ => .ok "\x7b\"Conflict\":\x7b\"reason\":\"boom\"\x7d\x7d"
  errDisplay := fun _ => "conflict: boom"
  exec := fun _ _ => .ok .pong

/-- Demo engine whose executor reports an engine error. -/
def demoErrEngine : EngineModel DemoCmd DemoOut DemoErr Nat :=
  { demoEngine with exec := fun _ _ => .err .conflict }

/-- Demo engine whose executor terminates abnormally. -/
def demoFaultEngine : EngineModel DemoCmd DemoOut DemoErr Nat :=
  { demoEngine with exec := fun _ _ => .fault }

/-- A registry with one live handle (id 1, resource 0) and counter at 2, as
left behind by one successful ephemeral open on a fresh registry. -/
def demoReg : HandleRegistry Nat :=
  { next_id := 2, handles := [(1, 0)] }

/-- One step of association-list lookup, with the key test as a
proposition. -/
theorem lookup_cons_eq {Res : Type} (k id : Nat) (v : Res)
    (rest : List (Nat × Res)) :
    List.lookup id ((k, v) :: rest) =
      if id = k then some v else List.lookup id rest := by
  by_cases h : id = k
  · simp [List.lookup, h]
  · have hb : (id == k) = false := by simpa using h
    simp [List.lookup, hb, h]

/-- Looking up a key in a list from which that key was filtered out finds
nothing. -/
theorem lookup_filter_ne {Res : Type} (l : List (Nat × Res)) (id : Nat) :
    (l.filter (fun p => p.1 != id)).lookup id = none := by
  induction l with
  | nil => rfl
  | cons p rest ih =>
    obtain ⟨k, v⟩ := p
    by_cases h : k = id
    · simpa [List.filter_cons, h] using ih
    · have hk : ((fun p : Nat × Res => p.1 != id) (k, v)) = true := by simpa using h
      rw [List.filter_cons, if_pos hk, lookup_cons_eq, if_neg (fun hh => h hh.symm)]
      exact ih

/-- A lookup misses exactly when no entry carries the key. -/
theorem lookup_eq_none_iff {Res : Type} (l : List (Nat × Res)) (id : Nat) :
    l.lookup id = none ↔ ∀ p ∈ l, p.1 ≠ id := by
  induction l with
  | nil => simp [List.lookup]
  | cons p rest ih =>
    obtain ⟨k, v⟩ := p
    rw [lookup_cons_eq]
    by_cases h : id = k
    · subst h
      simp [List.forall_mem_cons]
    · rw [if_neg h, ih]
      simp [List.forall_mem_cons, Ne.symm h]

/-- A lookup hits exactly when some entry carries the key. -/
theorem lookup_isSome_iff {Res : Type} (l : List (Nat × Res)) (id : Nat) :
    (l.lookup id).isSome = true ↔ ∃ r, (id, r) ∈ l := by
  induction l with
  | nil => simp [List.lookup]
  | cons p rest ih =>
    obtain ⟨k, v⟩ := p
    rw [lookup_cons_eq]
    by_cases h : id = k
    · subst h
      exact iff_of_true (by rw [if_pos rfl]; rfl) ⟨v, List.mem_cons_self _ _⟩
    · rw [if_neg h, ih]
      constructor
      · rintro ⟨r, hr⟩
        exact ⟨r, List.mem_cons_of_mem _ hr⟩
      · rintro ⟨r, hr⟩
        rcases List.mem_cons.mp hr with h1 | h1
        · exact absurd (congrArg Prod.fst h1) h
        · exact ⟨r, h1⟩

/-- No digit character produced by `Nat.digitChar` is the NUL character. -/
theorem digitChar_ne_nul (n : Nat) : Nat.digitChar n ≠ Char.ofNat 0 := by
  by_cases h0 : n = 0
  · subst h0; decide
  by_cases h1 : n = 1
  · subst h1; decide
  by_cases h2 : n = 2
  · subst h2; decide
  by_cases h3 : n = 3
  · subst h3; decide
  by_cases h4 : n = 4
  · subst h4; decide
  by_cases h5 : n = 5
  · subst h5; decide
  by_cases h6 : n = 6
  · subst h6; decide
  by_cases h7 : n = 7
  · subst h7; decide
  by_cases h8 : n = 8
  · subst h8; decide
  by_cases h9 : n = 9
  · subst h9; decide
  by_cases h10 : n = 10
  · subst h10; decide
  by_cases h11 : n = 11
  · subst h11; decide
  by_cases h12 : n = 12
  · subst h12; decide
  by_cases h13 : n = 13
  · subst h13; decide
  by_cases h14 : n = 14
  · subst h14; decide
  by_cases h15 : n = 15
  · subst h15; decide
  have hstar : Nat.digitChar n = Char.ofNat 42 := by
    rw [Nat.digitChar, if_neg h0, if_neg h1, if_neg h2, if_neg h3, if_neg h4,
      if_neg h5, if_neg h6, if_neg h7, if_neg h8, if_neg h9, if_neg h10,
      if_neg h11, if_neg h12, if_neg h13, if_neg h14, if_neg h15]
  rw [hstar]
  decide

/-- The digit accumulator of `Nat.toDigitsCore` never produces the NUL
character (given a NUL-free accumulator). -/
theorem toDigitsCore_ne_nul (b fuel : Nat) :
    ∀ (n : Nat) (acc : List Char), (∀ c ∈ acc, c ≠ Char.ofNat 0) →
      ∀ c ∈ Nat.toDigitsCore b fuel n acc, c ≠ Char.ofNat 0 := by
  induction fuel with
  | zero =>
    intro n acc hacc c hc
    exact hacc c (by simpa [Nat.toDigitsCore] using hc)
  | succ fuel ih =>
    intro n acc hacc c hc
    simp only [Nat.toDigitsCore] at hc
    split at hc
    · rcases List.mem_cons.mp hc with h1 | h1
      · subst h1; exact digitChar_ne_nul _
      · exact hacc c h1
    · refine ih (n / b) (Nat.digitChar (n % b) :: acc) ?_ c hc
      intro d hd
      rcases List.mem_cons.mp hd with h1 | h1
      · subst h1; exact digitChar_ne_nul _
      · exact hacc d h1

/-- The decimal rendering of a natural number holds no NUL character. -/
theorem repr_nul_free (n : Nat) : Char.ofNat 0 ∉ (Nat.repr n).data := by
  intro h
  exact toDigitsCore_ne_nul 10 (n + 1) n []
    (by intro c hc; exact absurd hc (List.not_mem_nil c)) (Char.ofNat 0) h rfl

/-- Folding string concatenation over NUL-free strings from a NUL-free
accumulator stays NUL-free. -/
theorem foldl_append_nul_free :
    ∀ (L : List String) (acc : String), Char.ofNat 0 ∉ acc.data →
      (∀ t ∈ L, Char.ofNat 0 ∉ t.data) →
      Char.ofNat 0 ∉ (L.foldl (fun a b => a ++ b) acc).data := by
  intro L
  induction L with
  | nil =>
    intro acc hacc _
    simpa using hacc
  | cons t ts ih =>
    intro acc hacc hall
    rw [List.foldl_cons]
    refine ih (acc ++ t) ?_ ?_
    · intro hmem
      rw [String.data_append] at hmem
      rcases List.mem_append.mp hmem with h1 | h1
      · exact hacc h1
      · exact hall t (List.mem_cons_self _ _) h1
    · intro u hu
      exact hall u (List.mem_cons_of_mem _ hu)

/-- Joining NUL-free strings yields a NUL-free string. -/
theorem join_nul_free (L : List String) (hall : ∀ t ∈ L, Char.ofNat 0 ∉ t.data) :
    Char.ofNat 0 ∉ (String.join L).data := by
  exact foldl_append_nul_free L "" (by decide) hall

/-- The serde escape of one character never contains the NUL character. -/
theorem escapeJsonChar_nul_free (c : Char) :
    Char.ofNat 0 ∉ (escapeJsonChar c).data := by
  rw [escapeJsonChar]
  by_cases h1 : c = Char.ofNat 34
  · rw [if_pos h1]; decide
  rw [if_neg h1]
  by_cases h2 : c = Char.ofNat 92
  · rw [if_pos h2]; decide
  rw [if_neg h2]
  by_cases h3 : c = Char.ofNat 8
  · rw [if_pos h3]; decide
  rw [if_neg h3]
  by_cases h4 : c = Char.ofNat 9
  · rw [if_pos h4]; decide
  rw [if_neg h4]
  by_cases h5 : c = Char.ofNat 10
  · rw [if_pos h5]; decide
  rw [if_neg h5]
  by_cases h6 : c = Char.ofNat 12
  · rw [if_pos h6]; decide
  rw [if_neg h6]
  by_cases h7 : c = Char.ofNat 13
  · rw [if_pos h7]; decide
  rw [if_neg h7]
  by_cases h8 : c.toNat < 32
  · rw [if_pos h8]
    intro hmem
    rw [String.data_append, String.data_append] at hmem
    rcases List.mem_append.mp hmem with hmem | hmem
    · rcases List.mem_append.mp hmem with hmem | hmem
      · exact absurd hmem (by decide)
      · have hmem2 : Char.ofNat 0 ∈ [Nat.digitChar (c.toNat / 16)] := hmem
        exact digitChar_ne_nul _ (List.mem_singleton.mp hmem2).symm
    · have hmem2 : Char.ofNat 0 ∈ [Nat.digitChar (c.toNat % 16)] := hmem
      exact digitChar_ne_nul _ (List.mem_singleton.mp hmem2).symm
  · rw [if_neg h8]
    intro hmem
    have hmem2 : Char.ofNat 0 ∈ [c] := hmem
    have hc : Char.ofNat 0 = c := List.mem_singleton.mp hmem2
    exact h8 (by rw [← hc]; decide)

/-- A serde-escaped JSON string literal never contains the NUL character. -/
theorem jsonString_nul_free (s : String) :
    Char.ofNat 0 ∉ (jsonString s).data := by
  rw [jsonString]
  intro hmem
  rw [String.data_append, String.data_append] at hmem
  rcases List.mem_append.mp hmem with hmem | hmem
  · rcases List.mem_append.mp hmem with hmem | hmem
    · exact absurd hmem (by decide)
    · refine join_nul_free (s.data.map escapeJsonChar) ?_ hmem
      intro t ht
      rcases List.mem_map.mp ht with ⟨c, _, rfl⟩
      exact escapeJsonChar_nul_free c
  · exact absurd hmem (by decide)

/-- An `error_json` envelope never contains the NUL character, so its
materialized buffer is never truncated. -/
theorem error_json_nul_free (msg : String) :
    Char.ofNat 0 ∉ (error_json msg).data := by
  rw [error_json]
  intro hmem
  rw [String.data_append, String.data_append] at hmem
  rcases List.mem_append.mp hmem with hmem | hmem
  · rcases List.mem_append.mp hmem with hmem | hmem
    · exact absurd hmem (by decide)
    · exact jsonString_nul_free msg hmem
  · exact absurd hmem (by decide)

/-- An `ok_json` envelope around a decimal id never contains the NUL
character. -/
theorem ok_json_repr_nul_free (n : Nat) :
    Char.ofNat 0 ∉ (ok_json (Nat.repr n)).data := by
  rw [ok_json]
  intro hmem
  rw [String.data_append, String.data_append] at hmem
  rcases List.mem_append.mp hmem with hmem | hmem
  · rcases List.mem_append.mp hmem with hmem | hmem
    · exact absurd hmem (by decide)
    · exact repr_nul_free n hmem
  · exact absurd hmem (by decide)

/-- Materializing a NUL-free string keeps it verbatim. -/
theorem to_c_string_eq_self {s : String} (h : Char.ofNat 0 ∉ s.data) :
    to_c_string s = s := by
  rw [to_c_string, if_neg h]

/-- No string is equal to its own `ok_json` wrapping. -/
theorem ne_ok_json (v : String) : v ≠ ok_json v := by
  intro h
  have h2 := congrArg String.length h
  rw [ok_json, String.length_append, String.length_append] at h2
  have h3 : 0 < ("\x7b\"ok\":" : String).length := by decide
  omega

/-- The buffer of a `strata_execute` call whose body returned a NUL-free
string holds that string. -/
theorem strata_execute_ret {Cmd Out Err Res : Type}
    (E : EngineModel Cmd Out Err Res) (reg : HandleRegistry Res)
    (h : Nat) (cj : Option String) (x : String)
    (hbody : strata_execute_body E reg h cj = BodyOutcome.ret x)
    (hnul : Char.ofNat 0 ∉ x.data) :
    (strata_execute E reg h cj).1 = x := by
  show catch_panic (strata_execute_body E reg h cj) = x
  rw [hbody]
  exact to_c_string_eq_self hnul

/-- The buffer of a `strata_open_memory` call whose body returned a NUL-free
string holds that string. -/
theorem strata_open_memory_ret {Res : Type} (creation : ERes Res String)
    (reg : HandleRegistry Res) (x : String)
    (hbody : (strata_open_memory_body creation reg).1 = BodyOutcome.ret x)
    (hnul : Char.ofNat 0 ∉ x.data) :
    (strata_open_memory creation reg).1 = x := by
  show catch_panic (strata_open_memory_body creation reg).1 = x
  rw [hbody]
  exact to_c_string_eq_self hnul

/-- `error_json` never yields the empty string. -/
theorem error_json_ne_empty (msg : String) : error_json msg ≠ "" := by
  intro h
  have h2 := congrArg String.length h
  rw [error_json, String.length_append, String.length_append] at h2
  have h3 : 0 < ("\x7b\"error\":\x7b\"Internal\":\x7b\"reason\":" : String).length := by
    decide
  have h4 : ("" : String).length = 0 := rfl
  omega

/-- A successful creation advances the counter by one (wrapping) and inserts
the resource at the issued id. -/
theorem open_memory_ok {Res : Type} (r : Res) (reg : HandleRegistry Res) :
    HandleRegistry.open_memory (ERes.ok r) reg =
      (ERes.ok reg.next_id,
        { next_id := (reg.next_id + 1) % U64,
          handles := insertEntry reg.next_id r reg.handles }) := rfl

/-- The ids issued by a run of successful ephemeral opens are the successive
values of the wrapping counter. -/
theorem openSeq_ids {Res : Type} (resources : List Res) :
    ∀ reg : HandleRegistry Res, reg.next_id < U64 →
      (openSeq resources reg).1 =
        (List.range resources.length).map (fun k => (reg.next_id + k) % U64) := by
  induction resources with
  | nil => intro reg _; simp [openSeq]
  | cons r rs ih =>
    intro reg hreg
    have hlt : (reg.next_id + 1) % U64 < U64 := Nat.mod_lt _ (by decide)
    rw [openSeq, open_memory_ok]
    dsimp only
    rw [ih _ hlt]
    rw [List.length_cons, List.range_succ_eq_map, List.map_cons, List.map_map]
    congr 1
    · rw [Nat.add_zero, Nat.mod_eq_of_lt hreg]
    · refine List.map_congr_left ?_
      intro k _
      show ((reg.next_id + 1) % U64 + k) % U64 = (reg.next_id + Nat.succ k) % U64
      rw [Nat.mod_add_mod]
      congr 1
      omega

/-- Claim C1: for every handle id with no live entry in the HandleTable,
strata_execute returns, for every command string, the InvalidHandle-classified
envelope of the exact shape error/Internal/reason "invalid handle", and its
body never terminates abnormally; conversely an id resolves to a resource
(the lookup in execute hits) exactly when it has a live entry in the
table. -/
theorem execute_invalid_handle {Cmd Out Err Res : Type}
    (E : EngineModel Cmd Out Err Res) (reg : HandleRegistry Res) (id : Nat)
    (hdead : reg.handles.lookup id = none) :
    (∀ s : String,
      (strata_execute E reg id (some s)).1 = error_json "invalid handle") ∧
    error_json "invalid handle" =
      "\x7b\"error\":\x7b\"Internal\":\x7b\"reason\":\"invalid handle\"\x7d\x7d\x7d" ∧
    (∀ s : String, strata_execute_body E reg id (some s) ≠ BodyOutcome.fault) ∧
    (∀ id2 : Nat,
      (reg.handles.lookup id2).isSome = true ↔ ∃ r, (id2, r) ∈ reg.handles) := by
  have hbody : ∀ s : String, strata_execute_body E reg id (some s) =
      BodyOutcome.ret (error_json "invalid handle") := by
    intro s
    simp only [strata_execute_body, HandleRegistry.execute, hdead]
  refine ⟨fun s => ?_, by decide, fun s hc => ?_, fun id2 => lookup_isSome_iff _ _⟩
  · exact strata_execute_ret E reg id (some s) _ (hbody s)
      (error_json_nul_free "invalid handle")
  · rw [hbody s] at hc
    exact BodyOutcome.noConfusion hc

/-- Witness for C1: in the registry with the single live handle 1, executing
any command against the dead id 2 yields the invalid-handle envelope. -/
theorem execute_invalid_handle_witness :
    (strata_execute demoEngine demoReg 2 (some "junk")).1 =
      "\x7b\"error\":\x7b\"Internal\":\x7b\"reason\":\"invalid handle\"\x7d\x7d\x7d" := by
  have h := execute_invalid_handle demoEngine demoReg 2 (by decide)
  rw [h.1 "junk", h.2.1]

/-- Claim C7: on a live handle, a command wire-string that does not decode
yields the distinguishable malformed-command envelope (reason prefixed
"invalid command JSON: ", never equal to the invalid-handle reason), the
registry is left unchanged, the body never terminates abnormally, and no
command reaches the engine (the statement holds for every engine executor
behaviour, which the binder over the engine model quantifies). -/
theorem execute_malformed_command {Cmd Out Err Res : Type}
    (E : EngineModel Cmd Out Err Res) (reg : HandleRegistry Res)
    (id : Nat) (s : String) (res : Res) (msg : String)
    (hlive : reg.handles.lookup id = some res)
    (hdec : E.decodeCmd s = Except.error msg) :
    (strata_execute E reg id (some s)).1 =
      error_json ("invalid command JSON: " ++ msg) ∧
    (strata_execute E reg id (some s)).2 = reg ∧
    strata_execute_body E reg id (some s) ≠ BodyOutcome.fault ∧
    ("invalid command JSON: " ++ msg) ≠ "invalid handle" := by
  have hbody : strata_execute_body E reg id (some s) =
      BodyOutcome.ret (error_json ("invalid command JSON: " ++ msg)) := by
    simp only [strata_execute_body, HandleRegistry.execute, hlive, hdec]
  refine ⟨?_, rfl, ?_, ?_⟩
  · exact strata_execute_ret E reg id (some s) _ hbody
      (error_json_nul_free ("invalid command JSON: " ++ msg))
  · intro hc
    rw [hbody] at hc
    exact BodyOutcome.noConfusion hc
  · intro hcontra
    have h2 := congrArg String.length hcontra
    rw [String.length_append] at h2
    have h3 : ("invalid command JSON: " : String).length = 22 := by decide
    have h4 : ("invalid handle" : String).length = 14 := by decide
    omega

/-- Witness for C7: executing the garbage string "junk" against the live
handle 1 yields the malformed-command envelope and leaves the registry
unchanged. -/
theorem execute_malformed_command_witness :
    (strata_execute demoEngine demoReg 1 (some "junk")).1 =
      error_json ("invalid command JSON: " ++ "expected value at line 1 column 1") ∧
    (strata_execute demoEngine demoReg 1 (some "junk")).2 = demoReg :=
  ⟨(execute_malformed_command demoEngine demoReg 1 "junk" 0
      "expected value at line 1 column 1" (by decide) (by rfl)).1,
    (execute_malformed_command demoEngine demoReg 1 "junk" 0
      "expected value at line 1 column 1" (by decide) (by rfl)).2.1⟩

/-- Claim C8: strata_execute never inserts into or removes from the
HandleTable: for every table state, handle id, command argument and engine
behaviour, the live entries after the call are exactly the entries before
it (the body's only map operation is the read in HandleRegistry.execute). -/
theorem execute_preserves_table {Cmd Out Err Res : Type}
    (E : EngineModel Cmd Out Err Res) (reg : HandleRegistry Res)
    (id : Nat) (cj : Option String) :
    (strata_execute E reg id cj).2.handles = reg.handles ∧
    ∀ (id2 : Nat) (r : Res),
      ((id2, r) ∈ (strata_execute E reg id cj).2.handles ↔
        (id2, r) ∈ reg.handles) :=
  ⟨rfl, fun _ _ => Iff.rfl⟩

/-- Claim C10: when a boundary result string is materialized into the
caller-visible buffer, a string without interior NUL is kept verbatim, while
a string with an interior NUL silently becomes the empty buffer — which is
not an error envelope, since no error envelope is empty. -/
theorem buffer_nul_truncation (s : String) :
    (Char.ofNat 0 ∉ s.data → catch_panic (BodyOutcome.ret s) = s) ∧
    (Char.ofNat 0 ∈ s.data →
      catch_panic (BodyOutcome.ret s) = "" ∧
      ∀ msg : String, error_json msg ≠ "") := by
  constructor
  · intro h
    exact to_c_string_eq_self h
  · intro h
    refine ⟨?_, fun msg => error_json_ne_empty msg⟩
    show to_c_string s = ""
    rw [to_c_string, if_pos h]

/-- Witness for C10: the string holding an interior NUL materializes as the
empty buffer; the NUL-free string materializes verbatim. -/
theorem buffer_nul_truncation_witness :
    catch_panic (BodyOutcome.ret "a\x00b") = "" ∧
    catch_panic (BodyOutcome.ret "ok") = "ok" :=
  ⟨((buffer_nul_truncation "a\x00b").2 (by decide)).1,
    (buffer_nul_truncation "ok").1 (by decide)⟩

/-- Claim C4: on engine success strata_execute returns the engine's own
Output JSON directly as the top-level payload (which is never its own
"ok"-wrapping), while strata_open_memory on success returns the id wrapped as
ok_json; the transport-level failures of execute — dead handle, malformed
command, null command string — are wrapped in the generic error_json
envelope. -/
theorem execute_success_shape {Cmd Out Err Res : Type}
    (E : EngineModel Cmd Out Err Res) (reg : HandleRegistry Res)
    (id : Nat) (s : String) (res : Res) (cmd : Cmd) (out : Out) (outStr : String)
    (creation : ERes Res String) (res2 : Res) (id2 : Nat) (s2 : String)
    (msg : String)
    (hlive : reg.handles.lookup id = some res)
    (hdec : E.decodeCmd s = Except.ok cmd)
    (hexec : E.exec res cmd = ERes.ok out)
    (henc : E.encodeOut out = Except.ok outStr)
    (hnul : Char.ofNat 0 ∉ outStr.data)
    (hcreate : creation = ERes.ok res2)
    (hdead : reg.handles.lookup id2 = none)
    (hdec2 : E.decodeCmd s2 = Except.error msg) :
    (strata_execute E reg id (some s)).1 = outStr ∧
    outStr ≠ ok_json outStr ∧
    (strata_open_memory creation reg).1 = ok_json (Nat.repr reg.next_id) ∧
    (strata_execute E reg id2 (some s)).1 = error_json "invalid handle" ∧
    (strata_execute E reg id (some s2)).1 =
      error_json ("invalid command JSON: " ++ msg) ∧
    (strata_execute E reg id none).1 =
      error_json "command_json is null or invalid UTF-8" := by
  refine ⟨?_, ne_ok_json outStr, ?_, ?_, ?_, ?_⟩
  · refine strata_execute_ret E reg id (some s) outStr ?_ hnul
    simp only [strata_execute_body, HandleRegistry.execute, hlive, hdec, hexec, henc]
  · refine strata_open_memory_ret creation reg _ ?_ (ok_json_repr_nul_free reg.next_id)
    simp only [strata_open_memory_body, HandleRegistry.open_memory, hcreate]
  · refine strata_execute_ret E reg id2 (some s) _ ?_
      (error_json_nul_free "invalid handle")
    simp only [strata_execute_body, HandleRegistry.execute, hdead]
  · refine strata_execute_ret E reg id (some s2) _ ?_
      (error_json_nul_free ("invalid command JSON: " ++ msg))
    simp only [strata_execute_body, HandleRegistry.execute, hlive, hdec2]
  · refine strata_execute_ret E reg id none _ ?_
      (error_json_nul_free "command_json is null or invalid UTF-8")
    simp only [strata_execute_body]

/-- Witness for C4 at the demo engine: Ping against the live handle returns
the bare Pong output, the ephemeral open returns the ok-wrapped id 2, and
the three transport failures return error envelopes. -/
theorem execute_success_shape_witness :
    (strata_execute demoEngine demoReg 1 (some "\x7b\"Ping\":null\x7d")).1 =
      "\x7b\"Pong\":\x7b\x7d\x7d" ∧
    ("\x7b\"Pong\":\x7b\x7d\x7d" : String) ≠ ok_json "\x7b\"Pong\":\x7b\x7d\x7d" ∧
    (strata_open_memory (ERes.ok (7 : Nat)) demoReg).1 =
      ok_json (Nat.repr demoReg.next_id) ∧
    (strata_execute demoEngine demoReg 2 (some "\x7b\"Ping\":null\x7d")).1 =
      error_json "invalid handle" ∧
    (strata_execute demoEngine demoReg 1 (some "junk")).1 =
      error_json ("invalid command JSON: " ++ "expected value at line 1 column 1") ∧
    (strata_execute demoEngine demoReg 1 none).1 =
      error_json "command_json is null or invalid UTF-8" :=
  execute_success_shape demoEngine demoReg 1 "\x7b\"Ping\":null\x7d" 0
    DemoCmd.ping DemoOut.pong "\x7b\"Pong\":\x7b\x7d\x7d" (ERes.ok 7) 7 2 "junk"
    "expected value at line 1 column 1" (by decide) (by rfl) (by rfl) (by rfl)
    (by decide) (by rfl) (by decide) (by rfl)

/-- Claim C5 counterexample: with the engine error whose serde serialization
is the tagged structure Conflict/reason "boom", strata_execute on the live
handle returns an envelope that embeds that structure as an escaped JSON
string under Internal/reason, and is not the envelope carrying the engine
error structure unchanged under the "error" key. -/
theorem engine_error_not_passed_through :
    (strata_execute demoErrEngine demoReg 1 (some "\x7b\"Ping\":null\x7d")).1 =
      "\x7b\"error\":\x7b\"Internal\":\x7b\"reason\":\"\x7b\\\"Conflict\\\":\x7b\\\"reason\\\":\\\"boom\\\"\x7d\x7d\"\x7d\x7d\x7d" ∧
    (strata_execute demoErrEngine demoReg 1 (some "\x7b\"Ping\":null\x7d")).1 ≠
      "\x7b\"error\":\x7b\"Conflict\":\x7b\"reason\":\"boom\"\x7d\x7d\x7d" := by
  constructor
  · decide
  · decide

/-- Claim C5 (amended): on an engine-reported error the registry layer passes
the serde serialization of the engine error through unchanged as its error
string, but the bridge entry point then embeds that text as an escaped JSON
string inside the generic error/Internal/reason envelope — a stringified
form, not the engine structure itself. -/
theorem engine_error_stringified {Cmd Out Err Res : Type}
    (E : EngineModel Cmd Out Err Res) (reg : HandleRegistry Res)
    (id : Nat) (s : String) (res : Res) (cmd : Cmd) (e : Err) (errStr : String)
    (hlive : reg.handles.lookup id = some res)
    (hdec : E.decodeCmd s = Except.ok cmd)
    (hexec : E.exec res cmd = ERes.err e)
    (herr : E.encodeErr e = Except.ok errStr) :
    HandleRegistry.execute E reg id s = ERes.err errStr ∧
    (strata_execute E reg id (some s)).1 = error_json errStr := by
  have hreg : HandleRegistry.execute E reg id s = ERes.err errStr := by
    simp only [HandleRegistry.execute, hlive, hdec, hexec, herr]
  refine ⟨hreg, ?_⟩
  refine strata_execute_ret E reg id (some s) _ ?_ (error_json_nul_free errStr)
  simp only [strata_execute_body, hreg]

/-- Witness for the amended C5 at the demo engine: the Conflict engine error
comes through the registry as its serde text and reaches the caller wrapped
in error/Internal/reason. -/
theorem engine_error_stringified_witness :
    HandleRegistry.execute demoErrEngine demoReg 1 "\x7b\"Ping\":null\x7d" =
      ERes.err "\x7b\"Conflict\":\x7b\"reason\":\"boom\"\x7d\x7d" ∧
    (strata_execute demoErrEngine demoReg 1 (some "\x7b\"Ping\":null\x7d")).1 =
      error_json "\x7b\"Conflict\":\x7b\"reason\":\"boom\"\x7d\x7d" :=
  engine_error_stringified demoErrEngine demoReg 1 "\x7b\"Ping\":null\x7d" 0
    DemoCmd.ping DemoErr.conflict "\x7b\"Conflict\":\x7b\"reason\":\"boom\"\x7d\x7d"
    (by decide) (by rfl) (by rfl) (by rfl)

/-- Claim C6: close is idempotent and never errors: closing an already
closed id returns no error and leaves the registry as the first close left
it; removing an id with no live entry is a no-op that leaves the registry —
entries and counter — unchanged, with no error reported. -/
theorem close_idempotent {Res : Type} (reg : HandleRegistry Res) (id : Nat)
    (td : Res → Bool) :
    HandleRegistry.close (HandleRegistry.close reg id) id =
      HandleRegistry.close reg id ∧
    (reg.handles.lookup id = none → HandleRegistry.close reg id = reg) ∧
    (strata_close (HandleRegistry.close reg id) id td).1 =
      CallOutcome.returns none ∧
    (strata_close (HandleRegistry.close reg id) id td).2 =
      HandleRegistry.close reg id ∧
    (reg.handles.lookup id = none →
      (strata_close reg id td).1 = CallOutcome.returns none ∧
      (strata_close reg id td).2 = reg) := by
  have hfilter : (reg.handles.filter (fun p => p.1 != id)).filter
      (fun p => p.1 != id) = reg.handles.filter (fun p => p.1 != id) :=
    List.filter_eq_self.mpr (fun p hp => (List.mem_filter.mp hp).2)
  have hnoop : reg.handles.lookup id = none → HandleRegistry.close reg id = reg := by
    intro h
    rw [lookup_eq_none_iff] at h
    cases reg with
    | mk ni hs =>
      simp only [HandleRegistry.close]
      congr 1
      refine List.filter_eq_self.mpr ?_
      intro p hp
      simpa using h p hp
  refine ⟨?_, hnoop, ?_, ?_, ?_⟩
  · simp only [HandleRegistry.close]
    congr 1
  · simp only [strata_close, HandleRegistry.close, lookup_filter_ne]
  · simp only [strata_close, HandleRegistry.close, lookup_filter_ne]
    congr 1
  · intro h
    constructor
    · simp only [strata_close, h]
    · show (strata_close reg id td).2 = reg
      have h2 : (strata_close reg id td).2 = HandleRegistry.close reg id := by
        cases hl : reg.handles.lookup id with
        | none => simp only [strata_close, hl]
        | some r => simp only [strata_close, hl]
      rw [h2, hnoop h]

/-- Witness for C6: closing the never-issued id 5 on the demo registry
returns no error and leaves the registry unchanged, and a second close of
the live id 1 is a no-op returning no error. -/
theorem close_idempotent_witness :
    HandleRegistry.close demoReg 5 = demoReg ∧
    (strata_close demoReg 5 (fun _ => false)).1 = CallOutcome.returns none ∧
    (strata_close (HandleRegistry.close demoReg 1) 1 (fun _ => false)).1 =
      CallOutcome.returns none := by
  have h5 := close_idempotent demoReg 5 (fun _ => false)
  have h1 := close_idempotent demoReg 1 (fun _ => false)
  exact ⟨h5.2.1 (by decide), (h5.2.2.2.2 (by decide)).1, h1.2.2.1⟩

/-- Claim C2 counterexample: strata_close is not wrapped by the fault
barrier.  On the concrete registry whose live handle 1 has a resource whose
teardown terminates abnormally, the strata_close call lets the abnormal
termination cross the boundary instead of returning the internal-fault
envelope (or any envelope at all). -/
theorem close_not_fault_wrapped :
    (strata_close demoReg 1 (fun _ => true)).1 = CallOutcome.fault ∧
    CallOutcome.fault ≠ CallOutcome.returns (some panicEnvelope) := by
  constructor
  · decide
  · decide

/-- Claim C2 (amended): strata_open, strata_open_memory and strata_execute
are wrapped by the fault barrier — if their body terminates abnormally the
call still returns the internal-fault envelope "panic in Rust bridge";
strata_ping is not wrapped but returns a fixed literal whose construction
cannot fault; strata_close is not wrapped and returns no envelope — a fault
in the teardown of the resource being closed escapes the boundary, exactly
when the closed id is live and its teardown faults. -/
theorem fault_barrier_coverage {Cmd Out Err Res : Type}
    (E : EngineModel Cmd Out Err Res) (reg reg2 : HandleRegistry Res)
    (id id2 : Nat) (s p : String) (cfg : Option String) (res : Res) (cmd : Cmd)
    (td : Res → Bool)
    (hlive : reg.handles.lookup id = some res)
    (hdec : E.decodeCmd s = Except.ok cmd)
    (hexec : E.exec res cmd = ERes.fault) :
    (strata_execute E reg id (some s)).1 = panicEnvelope ∧
    (strata_open_memory (ERes.fault : ERes Res String) reg).1 = panicEnvelope ∧
    (strata_open (fun _ => (ERes.fault : ERes Res String)) reg (some p) cfg).1 =
      panicEnvelope ∧
    strata_ping = "\x7b\"ok\":\"strata-foundry-bridge\"\x7d" ∧
    ((strata_close reg2 id2 td).1 = CallOutcome.fault ↔
      ∃ r, reg2.handles.lookup id2 = some r ∧ td r = true) := by
  have hcf : catch_panic BodyOutcome.fault = panicEnvelope := by decide
  refine ⟨?_, ?_, ?_, by decide, ?_⟩
  · have hbody : strata_execute_body E reg id (some s) = BodyOutcome.fault := by
      simp only [strata_execute_body, HandleRegistry.execute, hlive, hdec, hexec]
    show catch_panic (strata_execute_body E reg id (some s)) = panicEnvelope
    rw [hbody, hcf]
  · have hbody : (strata_open_memory_body (ERes.fault : ERes Res String) reg).1 =
        BodyOutcome.fault := rfl
    show catch_panic (strata_open_memory_body (ERes.fault : ERes Res String) reg).1 =
      panicEnvelope
    rw [hbody, hcf]
  · have hbody : (strata_open_body (fun _ => (ERes.fault : ERes Res String)) reg
        (some p) cfg).1 = BodyOutcome.fault := rfl
    show catch_panic (strata_open_body (fun _ => (ERes.fault : ERes Res String)) reg
      (some p) cfg).1 = panicEnvelope
    rw [hbody, hcf]
  · cases hl : reg2.handles.lookup id2 with
    | none =>
      have h1 : (strata_close reg2 id2 td).1 = CallOutcome.returns none := by
        simp [strata_close, hl]
      rw [h1]
      constructor
      · intro h
        exact CallOutcome.noConfusion h
      · rintro ⟨r, hr, _⟩
        exact Option.noConfusion hr
    | some r =>
      by_cases htd : td r = true
      · have h1 : (strata_close reg2 id2 td).1 = CallOutcome.fault := by
          simp [strata_close, hl, htd]
        rw [h1]
        exact iff_of_true rfl ⟨r, rfl, htd⟩
      · rw [Bool.not_eq_true] at htd
        have h1 : (strata_close reg2 id2 td).1 = CallOutcome.returns none := by
          simp [strata_close, hl, htd]
        rw [h1]
        constructor
        · intro h
          exact CallOutcome.noConfusion h
        · rintro ⟨r2, hr2, htd2⟩
          obtain rfl : r = r2 := Option.some.inj hr2
          rw [htd] at htd2
          exact Bool.noConfusion htd2

/-- Witness for the amended C2: a faulting demo engine executor is converted
by the barrier of strata_execute into the panic envelope, a faulting
creation is converted by the barriers of the two opens, ping returns its
literal, and the unwrapped strata_close on the live handle 1 with faulting
teardown lets the fault escape. -/
theorem fault_barrier_coverage_witness :
    (strata_execute demoFaultEngine demoReg 1 (some "\x7b\"Ping\":null\x7d")).1 =
      panicEnvelope ∧
    (strata_open_memory (ERes.fault : ERes Nat String) demoReg).1 =
      panicEnvelope ∧
    (strata_open (fun _ => (ERes.fault : ERes Nat String)) demoReg
      (some "/tmp/db.strata") none).1 = panicEnvelope ∧
    strata_ping = "\x7b\"ok\":\"strata-foundry-bridge\"\x7d" ∧
    ((strata_close demoReg 1 (fun _ => true)).1 = CallOutcome.fault ↔
      ∃ r, demoReg.handles.lookup 1 = some r ∧ (fun _ : Nat => true) r = true) :=
  fault_barrier_coverage demoFaultEngine demoReg demoReg 1 1
    "\x7b\"Ping\":null\x7d" "/tmp/db.strata" none 0 DemoCmd.ping
    (fun _ => true) (by decide) (by rfl) (by rfl)

/-- Claim C3 counterexample: ids are issued by a wrapping 64-bit counter, so
a previously issued id is reissued within a process lifetime once the
counter wraps: in the run of 2^64 + 1 successful ephemeral opens from a
fresh registry, the first and the last issued id are both 1 and the issued
ids are not pairwise distinct. -/
theorem handle_id_reused_after_wrap :
    (openSeq (List.replicate (U64 + 1) (0 : Nat)) (HandleRegistry.new Nat)).1.get? 0 =
      some 1 ∧
    (openSeq (List.replicate (U64 + 1) (0 : Nat)) (HandleRegistry.new Nat)).1.get? U64 =
      some 1 ∧
    ¬ (openSeq (List.replicate (U64 + 1) (0 : Nat)) (HandleRegistry.new Nat)).1.Nodup := by
  have hids := openSeq_ids (List.replicate (U64 + 1) (0 : Nat))
    (HandleRegistry.new Nat) (by decide)
  rw [List.length_replicate] at hids
  have hnext : (HandleRegistry.new Nat).next_id = 1 := rfl
  rw [hnext] at hids
  have hget : ∀ k, k < U64 + 1 →
      (openSeq (List.replicate (U64 + 1) (0 : Nat)) (HandleRegistry.new Nat)).1.get? k =
        some ((1 + k) % U64) := by
    intro k hk
    rw [hids, List.get?_map, List.get?_range hk]
    rfl
  have h0 : (openSeq (List.replicate (U64 + 1) (0 : Nat))
      (HandleRegistry.new Nat)).1.get? 0 = some 1 := by
    rw [hget 0 (by omega)]
    decide
  have hU : (openSeq (List.replicate (U64 + 1) (0 : Nat))
      (HandleRegistry.new Nat)).1.get? U64 = some 1 := by
    rw [hget U64 (by omega)]
    decide
  have hlen : (openSeq (List.replicate (U64 + 1) (0 : Nat))
      (HandleRegistry.new Nat)).1.length = U64 + 1 := by
    rw [hids, List.length_map, List.length_range]
  refine ⟨h0, hU, fun hnd => ?_⟩
  have hinj : (0 : Nat) = U64 :=
    List.get?_inj (by rw [hlen]; omega) hnd (h0.trans hU.symm)
  exact absurd hinj.symm (by decide)

/-- Claim C3 (amended): ids are the successive values of a wrapping 64-bit
counter starting at 1: for every run of at most 2^64 successful ephemeral
opens from a fresh registry the issued ids are pairwise distinct and exactly
one per open, and the first id ever issued is 1; reuse can occur only after
the counter wraps. -/
theorem handle_ids_distinct_up_to_wrap {Res : Type} (resources : List Res)
    (r : Res) (rs : List Res) (hN : resources.length ≤ U64) :
    (openSeq resources (HandleRegistry.new Res)).1.Nodup ∧
    (openSeq resources (HandleRegistry.new Res)).1.length = resources.length ∧
    (openSeq (r :: rs) (HandleRegistry.new Res)).1.head? = some 1 := by
  have hone : (HandleRegistry.new Res).next_id = 1 := rfl
  have hids := openSeq_ids resources (HandleRegistry.new Res)
    (by rw [hone]; decide)
  rw [hone] at hids
  refine ⟨?_, ?_, ?_⟩
  · rw [hids]
    refine List.Nodup.map_on ?_ (List.nodup_range _)
    intro x hx y hy hxy
    rw [List.mem_range] at hx hy
    have h1 : x % U64 = y % U64 := Nat.ModEq.add_left_cancel' 1 hxy
    rw [Nat.mod_eq_of_lt (lt_of_lt_of_le hx hN),
      Nat.mod_eq_of_lt (lt_of_lt_of_le hy hN)] at h1
    exact h1
  · rw [hids, List.length_map, List.length_range]
  · have hids2 := openSeq_ids (r :: rs) (HandleRegistry.new Res)
      (by rw [hone]; decide)
    rw [hone] at hids2
    rw [hids2, List.length_cons, List.range_succ_eq_map, List.map_cons,
      List.head?_cons]
    decide

/-- Witness for the amended C3: three successful ephemeral opens from a
fresh registry issue the pairwise distinct ids 1, 2, 3, and the first issued
id is 1. -/
theorem handle_ids_distinct_up_to_wrap_witness :
    (openSeq [(0 : Nat), 0, 0] (HandleRegistry.new Nat)).1.Nodup ∧
    (openSeq [(0 : Nat), 0, 0] (HandleRegistry.new Nat)).1.length =
      [(0 : Nat), 0, 0].length ∧
    (openSeq ((0 : Nat) :: [0, 0]) (HandleRegistry.new Nat)).1.head? = some 1 :=
  handle_ids_distinct_up_to_wrap [(0 : Nat), 0, 0] 0 [0, 0] (by decide)

end StrataBridge
